import Mathlib

/-
Shallow embedding of src/utils/openrouter_api.py (a CV-optimizer module built
around one OpenRouter chat-completion gateway) together with proofs about its
behavior.

Modeling conventions:
* Python strings are Lean `String`; the slice `s[:n]` is `pySlice s n`,
  `.strip()` is `pyStrip`, `.lower()` is `pyLower` (exact on ASCII and on the
  Polish diacritics that occur in the inputs of interest), and the Python
  substring test `a in b` is `strContains b a`.
* JSON values are the `Json` inductive below; `response.json()` yields
  `Except String Json`, where `.error msg` stands for a raised
  `json.JSONDecodeError` with text `msg`.  JSON objects are association
  lists with distinct keys, as produced by `json.loads`.
* The HTTP layer (`requests.post`) is abstracted as a `Transport`: a function
  from the outgoing request to an `HttpOutcome` - either a completed response
  (status code, reason phrase, body) or a raised
  `requests.exceptions.RequestException` carrying its `str(e)` text.
* Every embedded operation returns its Python result paired with the list of
  HTTP requests it issued, so claims such as "zero invocations" or "exactly
  one POST per call" are statements about that trace.
* Python exceptions that can escape an operation are modeled with
  `Except PyExn`.  Exception message rendering follows CPython and the
  `requests` library where a claim could depend on it (the `HTTPError` text
  built by `raise_for_status`), and is approximate elsewhere.
* Lines 907-1205 of the source sit after the unconditional `return` on line
  906 of `optimize_cv_with_keywords`; per Python semantics they are not part
  of the function's denotation and are therefore not embedded.
-/

/-! ## Python string primitives -/

/-- Python slice `s[:n]` (by code points, like Python). -/
def pySlice (s : String) (n : Nat) : String := ⟨s.data.take n⟩

/-- Whitespace stripped by Python `str.strip()` (ASCII subset). -/
def pyIsSpace (c : Char) : Bool :=
  c = ' ' || c = '\t' || c = '\n' || c = '\x0d' || c = '\x0b' || c = '\x0c'

/-- Python `str.strip()`. -/
def pyStrip (s : String) : String :=
  ⟨((s.data.dropWhile pyIsSpace).reverse.dropWhile pyIsSpace).reverse⟩

/-- Python `str.lower()` on one character, exact for ASCII and the Polish
diacritics used by this module's inputs. -/
def pyLowerChar (c : Char) : Char :=
  if 'A' ≤ c && c ≤ 'Z' then Char.ofNat (c.toNat + 32)
  else if c = 'Ą' then 'ą' else if c = 'Ć' then 'ć' else if c = 'Ę' then 'ę'
  else if c = 'Ł' then 'ł' else if c = 'Ń' then 'ń' else if c = 'Ó' then 'ó'
  else if c = 'Ś' then 'ś' else if c = 'Ź' then 'ź' else if c = 'Ż' then 'ż'
  else c

/-- Python `str.lower()`. -/
def pyLower (s : String) : String := ⟨s.data.map pyLowerChar⟩

def listContainsAux (need : List Char) : List Char → Bool
  | [] => need.isEmpty
  | c :: cs => need.isPrefixOf (c :: cs) || listContainsAux need cs

/-- Python substring test `need in hay`. -/
def strContains (hay need : String) : Bool := listContainsAux need.data hay.data

/-- Python `s.startswith(p)`; used only to state claims about sentinel tags. -/
def strStartsWith (s p : String) : Bool := p.data.isPrefixOf s.data

/-! ## JSON values, Python exceptions, the HTTP layer -/

/-- A decoded JSON value (`json.loads` output).  JSON numbers are modeled as
integers; no claim depends on fractional values. -/
inductive Json where
  | null : Json
  | bool (b : Bool) : Json
  | num (n : Int) : Json
  | str (s : String) : Json
  | arr (xs : List Json) : Json
  | obj (kvs : List (String × Json)) : Json

/-- The Python exceptions that the gateway code can raise or handle.
`valueError` is raised for a missing API key; `typeError` arises from
subscripting or iterating a value of the wrong runtime type; `keyError` and
`indexError` arise from missing dict keys / list indices. -/
inductive PyExn where
  | valueError (msg : String) : PyExn
  | typeError (msg : String) : PyExn
  | keyError (msg : String) : PyExn
  | indexError (msg : String) : PyExn
deriving DecidableEq

/-- One outgoing chat-completion POST, as built on lines 38-45 of the source:
a fixed model identifier, the fixed system message, the caller prompt as the
user message, and the token cap. -/
structure ApiRequest where
  model : String
  system_content : String
  user_content : String
  max_tokens : Nat
deriving DecidableEq

/-- What the HTTP layer does with one request: either a completed response or
a raised `requests.exceptions.RequestException` with message `msg` (this
covers connection errors, timeouts and the `HTTPError` raised internally by
`raise_for_status` is modeled separately inside `send_api_request`). -/
inductive HttpOutcome where
  | resp (status : Nat) (reason : String) (body : Except String Json) : HttpOutcome
  | raised (msg : String) : HttpOutcome

/-- A deterministic mock of the backend: the outcome of posting one request. -/
abbrev Transport := ApiRequest → HttpOutcome

/-! ## Module constants (source lines 11-19) -/

def OPENROUTER_BASE_URL : String := "https://openrouter.ai/api/v1/chat/completions"

def MODEL : String := "mistralai/mistral-7b-instruct:free"

/-- The fixed system message of the payload built on line 41. -/
def SYSTEM_MESSAGE : String :=
  "You are an expert resume editor and career advisor. Always respond in the same language as the CV or job description provided by the user."

/-- The sentinel text returned on rate limiting (lines 55 and 72). -/
def RATE_LIMITED_MESSAGE : String :=
  "[RATE_LIMITED] Przekroczono limit zapytań API. Proszę spróbować ponownie za kilka minut."

/-! ## Python dynamic subscripting, faithful to CPython runtime typing -/

/-- Association-list lookup standing for Python dict access (keys are distinct
in `json.loads` output, so first-match lookup is exact). -/
def lookupKey (kvs : List (String × Json)) (k : String) : Option Json :=
  match kvs with
  | [] => none
  | (k₀, v) :: rest => if k₀ = k then some v else lookupKey rest k

/-- Python `key in j`: key membership for dicts, element membership for lists,
substring test for strings, `TypeError` for non-iterables. -/
def pyIn (key : String) : Json → Except PyExn Bool
  | .obj kvs => .ok (lookupKey kvs key).isSome
  | .arr xs => .ok (xs.any (fun j => match j with | .str s => s = key | _ => false))
  | .str s => .ok (strContains s key)
  | .num _ => .error (.typeError "argument of type int is not iterable")
  | .bool _ => .error (.typeError "argument of type bool is not iterable")
  | .null => .error (.typeError "argument of type NoneType is not iterable")

/-- Python `len(j)`. -/
def pyLen : Json → Except PyExn Nat
  | .arr xs => .ok xs.length
  | .str s => .ok s.length
  | .obj kvs => .ok kvs.length
  | .num _ => .error (.typeError "object of type int has no len")
  | .bool _ => .error (.typeError "object of type bool has no len")
  | .null => .error (.typeError "object of type NoneType has no len")

/-- Python `j[key]` for a string key. -/
def pyGetItemStr (j : Json) (key : String) : Except PyExn Json :=
  match j with
  | .obj kvs =>
      match lookupKey kvs key with
      | some v => .ok v
      | none => .error (.keyError ("\x27" ++ key ++ "\x27"))
  | .str _ => .error (.typeError "string indices must be integers")
  | .arr _ => .error (.typeError "list indices must be integers, not str")
  | _ => .error (.typeError "object is not subscriptable")

/-- Python `j[0]`. -/
def pyGetItemZero : Json → Except PyExn Json
  | .arr [] => .error (.indexError "list index out of range")
  | .arr (x :: _) => .ok x
  | .str s =>
      match s.data with
      | [] => .error (.indexError "string index out of range")
      | c :: _ => .ok (.str ⟨[c]⟩)
  | .obj _ => .error (.keyError "0")
  | _ => .error (.typeError "object is not subscriptable")

/-! ## The completion gateway: send_api_request (source lines 21-77) -/

/-- Lines 63-67: `result['choices'][0]['message']['content']` behind the
guard `'choices' in result and len(result['choices']) > 0`, with the
unexpected-format sentinel in the `else` branch. -/
def extract_content (result : Json) : Except PyExn Json := do
  let hasChoices ← pyIn "choices" result
  if hasChoices then
    let choices ← pyGetItemStr result "choices"
    let n ← pyLen choices
    if n > 0 then
      let first ← pyGetItemZero choices
      let message ← pyGetItemStr first "message"
      pyGetItemStr message "content"
    else
      pure (.str "[ERROR] Nieoczekiwany format odpowiedzi API.")
  else
    pure (.str "[ERROR] Nieoczekiwany format odpowiedzi API.")

/-- Lines 75-77: `except (KeyError, IndexError, json.JSONDecodeError)` around
the parsing code.  A `TypeError` is not in the tuple and propagates. -/
def handleParseErrors (r : Except PyExn Json) : Except PyExn Json :=
  match r with
  | .error (.keyError m) => .ok (.str ("[ERROR] Błąd przetwarzania odpowiedzi API: " ++ m))
  | .error (.indexError m) => .ok (.str ("[ERROR] Błąd przetwarzania odpowiedzi API: " ++ m))
  | r => r

/-- The text of the `HTTPError` that `response.raise_for_status()` raises for
a 4xx/5xx status, exactly as the requests library formats it. -/
def httpErrorMessage (status : Nat) (reason : String) : String :=
  (if status < 500 then toString status ++ " Client Error: " ++ reason
   else toString status ++ " Server Error: " ++ reason)
  ++ " for url: " ++ OPENROUTER_BASE_URL

/-- Source lines 21-77.  `api_key` is the module-level `OPENROUTER_API_KEY`
(empty when the environment variable is unset); `transport` abstracts
`requests.post` on line 49.  Returns the Python result (a returned value or an
escaped exception) paired with the list of HTTP requests issued.
`retry_count` and `retry_delay` are accepted, as in the source, and read
nowhere. -/
def send_api_request (api_key : String) (transport : Transport)
    (prompt : String) (max_tokens : Nat := 2000)
    (retry_count : Nat := 1) (retry_delay : Nat := 1) :
    Except PyExn Json × List ApiRequest :=
  if api_key = "" then
    (.error (.valueError "OpenRouter API key not set in environment variables"), [])
  else
    let req : ApiRequest := ⟨MODEL, SYSTEM_MESSAGE, prompt, max_tokens⟩
    match transport req with
    | .raised msg =>
        if strContains msg "429" then (.ok (.str RATE_LIMITED_MESSAGE), [req])
        else (.ok (.str ("[ERROR] Błąd komunikacji z API: " ++ msg)), [req])
    | .resp status reason body =>
        if status = 429 then (.ok (.str RATE_LIMITED_MESSAGE), [req])
        else if 400 ≤ status ∧ status < 600 then
          let msg := httpErrorMessage status reason
          if strContains msg "429" then (.ok (.str RATE_LIMITED_MESSAGE), [req])
          else (.ok (.str ("[ERROR] Błąd komunikacji z API: " ++ msg)), [req])
        else
          match body with
          | .error decodeMsg =>
              (.ok (.str ("[ERROR] Błąd przetwarzania odpowiedzi API: " ++ decodeMsg)), [req])
          | .ok result => (handleParseErrors (extract_content result), [req])

/-! ## Detector and generator prompt templates

Each `*_prompt` definition is the corresponding Python f-string transcribed
verbatim, with the interpolation points replaced by string concatenation.
`pySlice _ 2000` stands for the `[:2000]` slices in the detector prompts. -/

def seniority_prompt_pre : String :=
  "\n    TASK: Określ poziom seniority (junior, mid, senior) na podstawie CV i opisu stanowiska.\n\n    Wskazówki do analizy:\n\n    1. Sprawdź lata doświadczenia w CV\n    2. Przeanalizuj poziom odpowiedzialności w poprzednich rolach\n    3. Oceń wymagania z opisu stanowiska\n    4. Porównaj umiejętności z CV z wymaganiami w opisie stanowiska\n\n    Zwróć tylko jeden z poniższych poziomów:\n    - \"junior\" - dla początkujących specjalistów z doświadczeniem 0-2 lata\n    - \"mid\" - dla specjalistów z doświadczeniem 2-5 lat\n    - \"senior\" - dla ekspertów z doświadczeniem 5+ lat\n\n    CV:\n    "

def seniority_prompt_mid : String :=
  "...\n\n    Opis stanowiska:\n    "

def seniority_prompt_post : String :=
  "...\n\n    Odpowiedz tylko jednym słowem: junior, mid lub senior.\n    "

def seniority_prompt (cv_text job_description : String) : String :=
  seniority_prompt_pre ++ pySlice cv_text 2000 ++ seniority_prompt_mid
    ++ pySlice job_description 2000 ++ seniority_prompt_post

def job_type_prompt_pre : String :=
  "\n    TASK: Określ typ pracy opisanej w ogłoszeniu o pracę.\n\n    Możliwe typy pracy:\n    - \"physical\" - praca fizyczna (np. kierowca, magazynier, pracownik produkcji)\n    - \"technical\" - praca techniczna (np. mechanik, elektryk, technik)\n    - \"office\" - praca biurowa (np. administrator, asystent, koordynator)\n    - \"professional\" - praca specjalistyczna (np. lekarz, prawnik, nauczyciel)\n    - \"creative\" - praca kreatywna (np. grafik, projektant, artysta)\n    - \"it\" - praca w IT (np. programista, administrator sieci, analityk danych)\n\n    Opis stanowiska:\n    "

def job_type_prompt_post : String :=
  "...\n\n    Odpowiedz tylko jednym słowem - kod typu pracy.\n    "

def job_type_prompt (job_description : String) : String :=
  job_type_prompt_pre ++ pySlice job_description 2000 ++ job_type_prompt_post

def specific_role_prompt_pre : String :=
  "\n    TASK: Określ konkretną rolę zawodową opisaną w ogłoszeniu o pracę.\n\n    Wybierz jedną konkretną rolę, która najlepiej pasuje do opisu, na przykład:\n    - kierowca\n    - magazynier\n    - sprzedawca\n    - księgowy\n    - programista\n    - nauczyciel\n    - lekarz\n    - grafik\n    - mechanik\n    - inżynier\n\n    Opis stanowiska:\n    "

def specific_role_prompt_post : String :=
  "...\n\n    Odpowiedz tylko jednym słowem - nazwa konkretnej roli zawodowej, bez żadnych dodatkowych słów.\n    "

def specific_role_prompt (job_description : String) : String :=
  specific_role_prompt_pre ++ pySlice job_description 2000 ++ specific_role_prompt_post

def industry_prompt_pre : String :=
  "\n    TASK: Określ branżę na podstawie opisu stanowiska.\n\n    Możliwe branże:\n    - \"it\" - technologia, programowanie, analiza danych, IT\n    - \"finance\" - finanse, bankowość, księgowość, ubezpieczenia\n    - \"marketing\" - marketing, reklama, PR, social media\n    - \"healthcare\" - służba zdrowia, farmacja, medycyna\n    - \"hr\" - HR, rekrutacja, zasoby ludzkie\n    - \"education\" - edukacja, szkolnictwo, e-learning\n    - \"engineering\" - inżynieria, produkcja, budownictwo\n    - \"transport\" - transport, logistyka, spedycja\n    - \"retail\" - handel detaliczny, sprzedaż, obsługa klienta\n    - \"legal\" - prawo, usługi prawne\n    - \"creative\" - kreatywna, design, sztuka, UX/UI\n    - \"general\" - inna branża lub brak wyraźnej specjalizacji\n\n    Opis stanowiska:\n    "

def industry_prompt_post : String :=
  "...\n\n    Odpowiedz tylko jednym słowem - kod branży.\n    "

def industry_prompt (job_description : String) : String :=
  industry_prompt_pre ++ pySlice job_description 2000 ++ industry_prompt_post

def warning_prompt : String :=
  "\n    ZAAWANSOWANA ANALIZA I OPTYMALIZACJA CV:\n\n    1. ANALIZA ZGODNOŚCI:\n       - Identyfikacja kluczowych wymagań stanowiska\n       - Mapowanie umiejętności kandydata do wymagań\n       - Obliczenie % dopasowania do stanowiska\n       - Sugestie uzupełnienia brakujących umiejętności\n\n    2. OPTYMALIZACJA DOŚWIADCZENIA:\n       - Identyfikacja projektów o największym znaczeniu\n       - Kwantyfikacja osiągnięć (%, liczby, skala)\n       - Wydobycie ukrytych umiejętności z projektów\n       - Podkreślenie transferowalnych kompetencji\n\n    3. ANALIZA RYNKOWA:\n       - Porównanie z aktualnymi trendami branżowymi\n       - Identyfikacja unikalnych atutów kandydata\n       - Sugestie rozwoju zgodne z trendami rynku\n       - Analiza konkurencyjności profilu\n\n    4. PERSONALIZACJA I FORMATOWANIE:\n       - Dostosowanie języka do kultury firmy\n       - Optymalizacja pod kątem ATS\n       - Hierarchizacja treści wg znaczenia\n       - Profesjonalne formatowanie sekcji\n\n    KRYTYCZNE ZASADY PRAWDZIWOŚCI:\n    "

def transformation_prompt (specific_role cv_text job_description : String) : String :=
  "\n    TASK: Przeprowadź ostrożną analizę CV nauczyciela i pokaż, jak jego/jej rzeczywiste umiejętności i doświadczenie mogą być wartościowe w roli przedstawiciela handlowego. \n\n    KLUCZOWE ZASADY:\n    1. Zachowaj wszystkie prawdziwe informacje z CV\n    2. Nie wymyślaj żadnego doświadczenia w sprzedaży\n    3. Pokaż, jak umiejętności nauczyciela przekładają się na sprzedaż:\n       - Umiejętności prezentacji\n       - Komunikacja z różnymi osobami\n       - Cierpliwość w wyjaśnianiu\n       - Zdolność przekonywania\n       - Organizacja pracy\n    4. Uczciwie przedstaw brak doświadczenia w sprzedaży jako potencjał do nauki\n\n    KLUCZOWE OBSZARY ANALIZY:\n\n    1. UMIEJĘTNOŚCI TRANSFEROWALNE:\n       - Przeanalizuj każde doświadczenie pod kątem umiejętności, które można przenieść na nowe stanowisko\n       - Znajdź powiązania między obecnymi umiejętnościami a wymaganiami stanowiska\n       - Przekształć ogólne umiejętności w konkretne atuty dla nowej roli\n\n    2. UKRYTE KOMPETENCJE:\n       - Zidentyfikuj umiejętności wynikające z hobby, wolontariatu, projektów osobistych\n       - Wydobądź kompetencje z pozornie niezwiązanych doświadczeń\n       - Znajdź nietypowe źródła wartościowych umiejętności\n\n    3. POTENCJAŁ ROZWOJOWY:\n       - Podkreśl szybkość uczenia się i adaptacji\n       - Zaznacz wszystkie kursy, szkolenia i certyfikaty\n       - Uwypuklij chęć rozwoju w nowym kierunku\n\n    4. OSIĄGNIĘCIA I SUKCESY:\n       - Przekształć każde osiągnięcie w kontekst nowego stanowiska\n       - Podkreśl uniwersalne sukcesy (np. praca zespołowa, efektywność)\n       - Kwantyfikuj osiągnięcia tam, gdzie to możliwe\n\n    WSKAZÓWKI SPECJALNE:\n\n    1. Dla kandydata bez doświadczenia w "
    ++ specific_role
    ++ ":\n       - Znajdź wszystkie sytuacje wymagające podobnych umiejętności\n       - Przekształć doświadczenia z innych obszarów na język nowej roli\n       - Podkreśl projekty osobiste lub akademickie związane ze stanowiskiem\n\n    2. Transformacja umiejętności:\n       - Komunikacja → Obsługa klienta / Prezentacje / Negocjacje\n       - Organizacja → Zarządzanie projektami / Koordynacja\n       - Analiza → Rozwiązywanie problemów / Optymalizacja procesów\n\n    3. Wydobycie wartości z każdego doświadczenia:\n       - Praca w restauracji → Obsługa klienta, praca pod presją czasu, zarządzanie priorytetami\n       - Sprzedaż detaliczna → Negocjacje, prezentacja produktu, realizacja celów\n       - Projekty studenckie → Zarządzanie projektami, praca zespołowa, dotrzymywanie terminów\n\n    STRUKTURA NOWEGO CV:\n\n    1. Silne podsumowanie zawodowe:\n       - Podkreśl główne atuty pasujące do stanowiska\n       - Zaznacz gotowość do szybkiego przyswajania wiedzy\n       - Pokaż entuzjazm i motywację do rozwoju w nowym kierunku\n\n    2. Kluczowe umiejętności:\n       - Podziel na sekcje odpowiadające wymaganiom stanowiska\n       - Dodaj poziom zaawansowania i kontekst zdobycia umiejętności\n       - Uwzględnij umiejętności miękkie istotne dla roli\n\n    3. Doświadczenie zawodowe:\n       - Przekształć każde doświadczenie pod kątem nowej roli\n       - Podkreśl osiągnięcia związane z wymaganymi kompetencjami\n       - Używaj języka branżowego dopasowanego do stanowiska\n\n    4. Projekty i inicjatywy:\n       - Dodaj sekcję pokazującą praktyczne zastosowanie umiejętności\n       - Uwzględnij projekty osobiste, wolontariat, działalność dodatkową\n       - Podkreśl rezultaty i zdobyte kompetencje\n\n    CV:\n    "
    ++ cv_text
    ++ "\n\n    OPIS STANOWISKA:\n    "
    ++ job_description
    ++ "\n\n    WAŻNE:\n    1. Zachowaj pełną prawdziwość informacji\n    2. Nie wymyślaj doświadczenia ani umiejętności\n    3. Skup się na transformacji i lepszym przedstawieniu istniejących kompetencji\n    4. Używaj języka zrozumiałego dla branży\n    5. Podkreśl potencjał i chęć rozwoju\n\n    Zwróć zoptymalizowane CV w formacie tekstowym, wykorzystując powyższe wytyczne do maksymalnego wydobycia wartości z istniejącego doświadczenia kandydata.\n    "

def recruiter_feedback_prompt (is_polish : Bool) (context cv_text : String) : String :=
  "\n    TASK: Jesteś doświadczonym rekruterem. Przeanalizuj to CV i dostarcz szczegółowej, praktycznej informacji zwrotnej.\n\n    "
    ++ (if is_polish then "UWAGA: TO CV JEST W JĘZYKU POLSKIM. ODPOWIEDZ KONIECZNIE PO POLSKU!" else "This CV appears to be in English. Please respond in English.")
    ++ "\n\n    Uwzględnij:\n    1. Ogólne wrażenie\n    2. Mocne i słabe strony\n    3. Ocena formatowania i struktury\n    4. Ocena jakości treści\n    5. Kompatybilność z systemami ATS\n    6. Konkretne sugestie ulepszeń\n    7. Ocena w skali 1-10\n\n    BARDZO WAŻNE: Odpowiedz w tym samym języku co CV. Jeśli CV jest po polsku, odpowiedz po polsku. Jeśli CV jest po angielsku, odpowiedz po angielsku.\n\n    "
    ++ context
    ++ "\n\n    CV:\n    "
    ++ cv_text
    ++ "\n\n    Dostarcz szczegółowej opinii rekrutera. Bądź szczery, ale konstruktywny.\n    "

def cover_letter_prompt_1 (company_name company_culture : String) : String :=
  "\n    TASK: Stwórz spersonalizowany list motywacyjny uwzględniający:\n\n    1. Specyfikę firmy i jej kulturę organizacyjną\n    2. Dopasowanie doświadczenia do wartości firmy\n    3. Elementy storytellingu pokazujące motywację\n    4. Konkretne przykłady osiągnięć powiązane ze stanowiskiem\n    5. Odniesienia do aktualnych projektów/wyzwań firmy\n\n    Firma: "
    ++ company_name
    ++ "\n    Kultura organizacyjna: "
    ++ company_culture
    ++ "\n    "

def cover_letter_prompt_2 (job_description cv_text : String) : String :=
  "\n    TASK: Create a personalized cover letter based on this CV and job description.\n\n    The cover letter should:\n    - Be professionally formatted\n    - Highlight relevant skills and experiences from the CV\n    - Connect the candidate\x27s background to the job requirements\n    - Include a compelling introduction and conclusion\n    - Be approximately 300-400 words\n\n    IMPORTANT: Respond in the same language as the CV. If the CV is in Polish, respond in Polish. If the CV is in English, respond in English.\n\n    Job description:\n    "
    ++ job_description
    ++ "\n\n    CV:\n    "
    ++ cv_text
    ++ "\n\n    Return only the cover letter in plain text format.\n    "

def translate_prompt (cv_text : String) : String :=
  "\n    TASK: Translate this CV to professional English.\n\n    Important:\n    - Maintain all professional terminology\n    - Preserve the original structure and formatting\n    - Ensure proper translation of industry-specific terms\n    - Keep names of companies and products unchanged\n    - Make sure the translation sounds natural and professional in English\n\n    Original CV:\n    "
    ++ cv_text
    ++ "\n\n    Return only the translated CV in plain text format.\n    "

def alternative_careers_prompt (cv_text : String) : String :=
  "\n    TASK: Analyze this CV and suggest alternative career paths based on the skills and experience.\n\n    For each suggested career path include:\n    1. Job title/role\n    2. Why it\x27s a good fit based on existing skills\n    3. What additional skills might be needed\n    4. Potential industries or companies to target\n    5. Estimated effort to transition (low/medium/high)\n\n    IMPORTANT: Respond in the same language as the CV. If the CV is in Polish, respond in Polish. If the CV is in English, respond in English.\n\n    CV:\n    "
    ++ cv_text
    ++ "\n\n    Provide a detailed analysis with specific, actionable recommendations.\n    "

def multi_versions_prompt (roles_text cv_text : String) : String :=
  "\n    TASK: Stwórz profesjonalnie dostosowane wersje CV dla każdej roli.\n\n    Role do przygotowania:\n    "
    ++ roles_text
    ++ "\n\n    Dla każdej wersji CV wykonaj:\n\n    1. ANALIZA ROLI:\n       - Zidentyfikuj kluczowe wymagania dla danej roli\n       - Określ najważniejsze kompetencje i umiejętności\n       - Zbadaj specyfikę branży i jej oczekiwania\n\n    2. TRANSFORMACJA DOŚWIADCZENIA:\n       - Przekształć każde doświadczenie pod kątem danej roli\n       - Wydobądź i podkreśl relevant achievements\n       - Dostosuj język do standardów branżowych\n       - Usuń lub zmniejsz nacisk na nieistotne elementy\n\n    3. DOSTOSOWANIE STRUKTURY:\n       - Zmień kolejność sekcji pod kątem priorytetów roli\n       - Dodaj sekcje specyficzne dla danego stanowiska\n       - Dostosuj format do standardów branżowych\n       - Zoptymalizuj pod kątem ATS dla danej branży\n\n    4. WZMOCNIENIE KLUCZOWYCH ELEMENTÓW:\n       - Dodaj sekcję highlight\x27ów specyficznych dla roli\n       - Podkreśl certyfikaty i szkolenia istotne dla stanowiska\n       - Zaakcentuj projekty związane z daną rolą\n       - Uwypuklij osiągnięcia najbardziej relevant dla pozycji\n\n    5. PROFESJONALNA PERSONALIZACJA:\n       - Dostosuj ton i styl języka do kultury branżowej\n       - Użyj terminologii specyficznej dla danej roli\n       - Dodaj branżowe słowa kluczowe\n       - Zachowaj spójność z wymaganiami rynku\n\n    ZASADY FORMATOWANIA:\n    - Użyj czytelnego, profesjonalnego układu\n    - Zachowaj spójny system nagłówków\n    - Zastosuj odpowiednie odstępy i marginesy\n    - Zadbaj o hierarchię informacji\n\n    WAŻNE WSKAZÓWKI:\n    - Zachowaj pełną prawdziwość informacji\n    - Nie wymyślaj doświadczenia ani umiejętności\n    - Skup się na transformacji i lepszym przedstawieniu istniejących kompetencji\n    - Każda wersja powinna być kompletna i samodzielna\n\n    Oryginalne CV:\n    "
    ++ cv_text
    ++ "\n\n    Zwróć każdą wersję CV oddzieloną wyraźnym nagłówkiem z nazwą roli, zachowując pełen profesjonalizm i spójność.\n    "

/-! ## Context detectors (source lines 79-233) -/

/-- Source lines 79-119.  The `except Exception` on line 117 also absorbs the
`AttributeError` from `response.strip()` when the gateway hands back a
non-string, and any exception escaping `send_api_request`. -/
def detect_seniority_level (api_key : String) (transport : Transport)
    (cv_text job_description : String) : String × List ApiRequest :=
  let (r, trace) := send_api_request api_key transport (seniority_prompt cv_text job_description) 10
  match r with
  | .ok (.str s) =>
      let response := pyLower (pyStrip s)
      if response ∈ ["junior", "mid", "senior"] then (response, trace)
      else ("mid", trace)
  | _ => ("mid", trace)

/-- Source lines 121-156. -/
def detect_job_type (api_key : String) (transport : Transport)
    (job_description : String) : String × List ApiRequest :=
  let (r, trace) := send_api_request api_key transport (job_type_prompt job_description) 10
  match r with
  | .ok (.str s) =>
      let response := pyLower (pyStrip s)
      if response ∈ ["physical", "technical", "office", "professional", "creative", "it"] then
        (response, trace)
      else ("office", trace)
  | _ => ("office", trace)

/-- Source lines 158-188.  Note: no membership check against a fixed label
set; the normalized response is returned as is. -/
def detect_specific_role (api_key : String) (transport : Transport)
    (job_description : String) : String × List ApiRequest :=
  let (r, trace) := send_api_request api_key transport (specific_role_prompt job_description) 10
  match r with
  | .ok (.str s) => (pyLower (pyStrip s), trace)
  | _ => ("specjalista", trace)

/-- Source lines 190-233. -/
def detect_industry (api_key : String) (transport : Transport)
    (job_description : String) : String × List ApiRequest :=
  let (r, trace) := send_api_request api_key transport (industry_prompt job_description) 10
  match r with
  | .ok (.str s) =>
      let response := pyLower (pyStrip s)
      if response ∈ ["it", "finance", "marketing", "healthcare", "hr",
                     "education", "engineering", "transport", "retail",
                     "legal", "creative", "general"] then
        (response, trace)
      else ("general", trace)
  | _ => ("general", trace)

/-! ## optimize_cv_with_keywords (source lines 759-906) -/

/-- Source lines 759-906.  The body runs two identical rounds of context
detection (lines 767-774 and 806-813; the `except` arms are dead because the
detectors are total), builds the unused `warning_prompt` (lines 776-804),
builds the transformation prompt from the second round's `specific_role`, and
returns the gateway result on line 906.  Everything after that `return`
(lines 907-1205, the keyword-extraction and competency-suggestion logic,
ending in a second dispatch with `max_tokens=2500`) is unreachable and so
contributes nothing to the denotation.  `keywords_data` is only read by that
unreachable code. -/
def optimize_cv_with_keywords (api_key : String) (transport : Transport)
    (cv_text job_description : String) (keywords_data : Option Json := none) :
    Except PyExn Json × List ApiRequest :=
  let seniority1 := detect_seniority_level api_key transport cv_text job_description
  let industry1 := detect_industry api_key transport job_description
  let job_type1 := detect_job_type api_key transport job_description
  let specific_role1 := detect_specific_role api_key transport job_description
  let _wp := warning_prompt
  let seniority2 := detect_seniority_level api_key transport cv_text job_description
  let industry2 := detect_industry api_key transport job_description
  let job_type2 := detect_job_type api_key transport job_description
  let specific_role2 := detect_specific_role api_key transport job_description
  let prompt := transformation_prompt specific_role2.1 cv_text job_description
  let (r, t) := send_api_request api_key transport prompt 3000
  (r, seniority1.2 ++ industry1.2 ++ job_type1.2 ++ specific_role1.2
      ++ seniority2.2 ++ industry2.2 ++ job_type2.2 ++ specific_role2.2 ++ t)

/-! ## Content generators (source lines 1214-1398) -/

/-- Source lines 1214-1249.  `is_polish` is the heuristic on line 1223:
more than three of twelve Polish indicator words occur (case-insensitively)
in the CV text. -/
def recruiter_feedback_full_prompt (cv_text job_description : String) : String :=
  let context :=
    if job_description = "" then ""
    else "Job description for context:\n" ++ job_description
  let is_polish :=
    (["jestem", "doświadczenie", "umiejętności", "wykształcenie", "praca",
      "stanowisko", "firma", "uniwersytet", "szkoła", "oraz", "język",
      "polski"].filter
        (fun word => strContains (pyLower cv_text) (pyLower word))).length > 3
  recruiter_feedback_prompt is_polish context cv_text

def generate_recruiter_feedback (api_key : String) (transport : Transport)
    (cv_text : String) (job_description : String := "") :
    Except PyExn Json × List ApiRequest :=
  send_api_request api_key transport
    (recruiter_feedback_full_prompt cv_text job_description) 2000

/-- Source lines 1251-1288.  The prompt built from `company_name` and
`company_culture` on lines 1255-1266 is immediately rebound to the second
prompt on lines 1267-1286, so the dispatched prompt is `cover_letter_prompt_2`
for every input. -/
def generate_cover_letter (api_key : String) (transport : Transport)
    (cv_text job_description : String)
    (company_name : String := "") (company_culture : String := "") :
    Except PyExn Json × List ApiRequest :=
  let prompt := cover_letter_prompt_1 company_name company_culture
  let prompt := cover_letter_prompt_2 job_description cv_text
  send_api_request api_key transport prompt 2000

/-- Source lines 1290-1310. -/
def translate_to_english (api_key : String) (transport : Transport)
    (cv_text : String) : Except PyExn Json × List ApiRequest :=
  send_api_request api_key transport (translate_prompt cv_text) 2500

/-- Source lines 1312-1334. -/
def suggest_alternative_careers (api_key : String) (transport : Transport)
    (cv_text : String) : Except PyExn Json × List ApiRequest :=
  send_api_request api_key transport (alternative_careers_prompt cv_text) 2000

/-- Source lines 1336-1398. -/
def multi_versions_full_prompt (cv_text : String) (roles : List String) : String :=
  let roles_text := String.intercalate "\n" (roles.map (fun role => "- " ++ role))
  multi_versions_prompt roles_text cv_text

def generate_multi_versions (api_key : String) (transport : Transport)
    (cv_text : String) (roles : List String) : Except PyExn Json × List ApiRequest :=
  send_api_request api_key transport (multi_versions_full_prompt cv_text roles) 3500

/-! ## Helper lemmas -/

lemma pySlice_pySlice (s : String) (n : Nat) : pySlice (pySlice s n) n = pySlice s n :=
  congrArg String.mk
    (show (s.data.take n).take n = s.data.take n by simp [List.take_take])

lemma pySlice_of_length_le (s : String) (n : Nat) (h : s.length ≤ n) : pySlice s n = s :=
  congrArg String.mk (List.take_of_length_le h)

lemma pySlice_length_of_lt (s : String) (n : Nat) (h : n < s.length) :
    (pySlice s n).length = n := by
  show (s.data.take n).length = n
  rw [List.length_take]
  have hlen : s.data.length = s.length := rfl
  omega

lemma strStartsWith_append (a b pre : String) (h : strStartsWith a pre = true) :
    strStartsWith (a ++ b) pre = true := by
  have h₀ : pre.data <+: a.data := by
    simpa [strStartsWith, List.isPrefixOf_iff_prefix] using h
  have h₁ : pre.data <+: (a ++ b).data := by
    rw [String.data_append]
    exact h₀.trans (List.prefix_append a.data b.data)
  simpa [strStartsWith, List.isPrefixOf_iff_prefix] using h₁

/-- The request trace of one gateway call: empty when the key is missing,
exactly one POST otherwise. -/
lemma send_api_request_trace (k : String) (t : Transport) (p : String) (m rc rd : Nat) :
    (send_api_request k t p m rc rd).2
      = if k = "" then [] else [⟨MODEL, SYSTEM_MESSAGE, p, m⟩] := by
  by_cases h : k = ""
  · simp [send_api_request, h]
  · simp only [send_api_request, if_neg h]
    cases t ⟨MODEL, SYSTEM_MESSAGE, p, m⟩ with
    | raised msg => by_cases h₂ : strContains msg "429" <;> simp [h₂]
    | resp status reason body =>
      by_cases h₂ : status = 429
      · simp [h₂]
      · by_cases h₃ : 400 ≤ status ∧ status < 600
        · by_cases h₄ : strContains (httpErrorMessage status reason) "429" <;>
            simp [h₂, h₃, h₄]
        · cases body <;> simp [h₂, h₃]

lemma detect_seniority_level_trace (k : String) (t : Transport) (cv jd : String) :
    (detect_seniority_level k t cv jd).2
      = (send_api_request k t (seniority_prompt cv jd) 10).2 := by
  unfold detect_seniority_level
  rcases h : send_api_request k t (seniority_prompt cv jd) 10 with ⟨r, trace⟩
  rcases r with e | v
  · rfl
  · cases v <;> first | rfl | (dsimp only; split <;> rfl)

lemma detect_job_type_trace (k : String) (t : Transport) (jd : String) :
    (detect_job_type k t jd).2 = (send_api_request k t (job_type_prompt jd) 10).2 := by
  unfold detect_job_type
  rcases h : send_api_request k t (job_type_prompt jd) 10 with ⟨r, trace⟩
  rcases r with e | v
  · rfl
  · cases v <;> first | rfl | (dsimp only; split <;> rfl)

lemma detect_specific_role_trace (k : String) (t : Transport) (jd : String) :
    (detect_specific_role k t jd).2
      = (send_api_request k t (specific_role_prompt jd) 10).2 := by
  unfold detect_specific_role
  rcases h : send_api_request k t (specific_role_prompt jd) 10 with ⟨r, trace⟩
  rcases r with e | v
  · rfl
  · cases v <;> rfl

lemma detect_industry_trace (k : String) (t : Transport) (jd : String) :
    (detect_industry k t jd).2 = (send_api_request k t (industry_prompt jd) 10).2 := by
  unfold detect_industry
  rcases h : send_api_request k t (industry_prompt jd) 10 with ⟨r, trace⟩
  rcases r with e | v
  · rfl
  · cases v <;> first | rfl | (dsimp only; split <;> rfl)

/-! ## Classification of handled failures (for claims about `[ERROR]` paths) -/

/-- Response bodies that lack the `choices[0].message.content` path in one of
the ways lines 63-77 of the source handle without raising: no `choices` key,
an empty `choices` list, or a first choice object missing `message` or
`content`. (Other malformed bodies hit an uncaught `TypeError`; see the
theorem about raise paths.) -/
def SafeMalformed (j : Json) : Prop :=
  (∃ kvs, j = .obj kvs ∧ lookupKey kvs "choices" = none) ∨
  (∃ kvs, j = .obj kvs ∧ lookupKey kvs "choices" = some (.arr [])) ∨
  (∃ kvs kvs₂ rest, j = .obj kvs
      ∧ lookupKey kvs "choices" = some (.arr (.obj kvs₂ :: rest))
      ∧ lookupKey kvs₂ "message" = none) ∨
  (∃ kvs kvs₂ kvs₃ rest, j = .obj kvs
      ∧ lookupKey kvs "choices" = some (.arr (.obj kvs₂ :: rest))
      ∧ lookupKey kvs₂ "message" = some (.obj kvs₃)
      ∧ lookupKey kvs₃ "content" = none)

/-- Transport outcomes that lines 47-77 of the source convert into an
`[ERROR]` sentinel: a raised `RequestException` without "429" in its text; a
4xx/5xx status other than 429 whose `HTTPError` text does not contain "429";
or a response outside the 4xx/5xx raise range and distinct from 429 whose
body fails to decode or is `SafeMalformed`. -/
def HandledFailure : HttpOutcome → Prop
  | .raised msg => strContains msg "429" = false
  | .resp status reason body =>
      status ≠ 429 ∧
      ((400 ≤ status ∧ status < 600
          ∧ strContains (httpErrorMessage status reason) "429" = false)
        ∨ (¬(400 ≤ status ∧ status < 600) ∧
            ((∃ m, body = .error m) ∨ (∃ j, body = .ok j ∧ SafeMalformed j))))

/-- A well-formed 2xx-style response body with the given content string. -/
def goodBody (content : String) : Json :=
  .obj [("choices", .arr [.obj [("message", .obj [("content", .str content)])]])]

/-- C1 (amended): whenever the transport outcome is a `HandledFailure`, the
gateway returns a string beginning with `[ERROR]` and raises nothing. -/
theorem send_api_request_error_sentinel
    (k : String) (t : Transport) (p : String) (m rc rd : Nat)
    (hk : k ≠ "") (h : HandledFailure (t ⟨MODEL, SYSTEM_MESSAGE, p, m⟩)) :
    ∃ s, (send_api_request k t p m rc rd).1 = .ok (.str s)
      ∧ strStartsWith s "[ERROR]" = true := by
  simp only [send_api_request, if_neg hk]
  rcases ho : t ⟨MODEL, SYSTEM_MESSAGE, p, m⟩ with ⟨status, reason, body⟩ | msg
  · rw [ho] at h
    obtain ⟨h429, hcase⟩ := h
    dsimp only
    rw [if_neg h429]
    rcases hcase with ⟨h₁, h₂, h₃⟩ | ⟨hnot, hbody⟩
    · rw [if_pos ⟨h₁, h₂⟩]
      simp only [h₃, Bool.false_eq_true, if_false]
      exact ⟨"[ERROR] Błąd komunikacji z API: " ++ httpErrorMessage status reason, rfl,
        strStartsWith_append _ _ _ (by decide)⟩
    · rw [if_neg hnot]
      rcases hbody with ⟨mm, rfl⟩ | ⟨j, rfl, hsafe⟩
      · exact ⟨"[ERROR] Błąd przetwarzania odpowiedzi API: " ++ mm, rfl,
          strStartsWith_append _ _ _ (by decide)⟩
      · rcases hsafe with ⟨kvs, rfl, hc⟩ | ⟨kvs, rfl, hc⟩
          | ⟨kvs, kvs₂, rest, rfl, hc, hm⟩ | ⟨kvs, kvs₂, kvs₃, rest, rfl, hc, hm, hco⟩
        · refine ⟨"[ERROR] Nieoczekiwany format odpowiedzi API.", ?_, by decide⟩
          simp [extract_content, pyIn, hc, handleParseErrors, Bind.bind, Except.bind, Pure.pure, Except.pure]
        · refine ⟨"[ERROR] Nieoczekiwany format odpowiedzi API.", ?_, by decide⟩
          simp [extract_content, pyIn, pyGetItemStr, pyLen, hc, handleParseErrors,
            Bind.bind, Except.bind, Pure.pure, Except.pure]
        · refine ⟨"[ERROR] Błąd przetwarzania odpowiedzi API: "
              ++ ("\x27" ++ "message" ++ "\x27"), ?_,
            strStartsWith_append _ _ _ (by decide)⟩
          simp [extract_content, pyIn, pyGetItemStr, pyLen, pyGetItemZero,
            hc, hm, handleParseErrors, Bind.bind, Except.bind, Pure.pure, Except.pure]
        · refine ⟨"[ERROR] Błąd przetwarzania odpowiedzi API: "
              ++ ("\x27" ++ "content" ++ "\x27"), ?_,
            strStartsWith_append _ _ _ (by decide)⟩
          simp [extract_content, pyIn, pyGetItemStr, pyLen, pyGetItemZero,
            hc, hm, hco, handleParseErrors, Bind.bind, Except.bind, Pure.pure, Except.pure]
  · rw [ho] at h
    have h₀ : strContains msg "429" = false := h
    dsimp only
    simp only [h₀, Bool.false_eq_true, if_false]
    exact ⟨"[ERROR] Błąd komunikacji z API: " ++ msg, rfl,
      strStartsWith_append _ _ _ (by decide)⟩

/-- C1 counterexample: a non-2xx, non-429 status (304) outside the 4xx/5xx
raise range, carrying a well-formed body, makes `send_api_request` return the
content - not an `[ERROR]` string - refuting the claim for general non-2xx
statuses. -/
theorem non2xx_success_body_returns_content :
    (send_api_request "k" (fun _ => .resp 304 "Not Modified" (.ok (goodBody "hello")))
        "p" 2000 1 1).1 = .ok (.str "hello")
    ∧ ¬(200 ≤ 304 ∧ 304 ≤ 299) ∧ (304 : Nat) ≠ 429
    ∧ strStartsWith "hello" "[ERROR]" = false :=
  ⟨rfl, by decide, by decide, by decide⟩

/-- C1 witness: a timed-out POST yields an `[ERROR]` sentinel. -/
theorem send_api_request_error_sentinel_witness :
    ∃ s, (send_api_request "k" (fun _ => .raised "connection timed out") "p" 2000 1 1).1
        = .ok (.str s) ∧ strStartsWith s "[ERROR]" = true :=
  send_api_request_error_sentinel "k" (fun _ => .raised "connection timed out")
    "p" 2000 1 1 (by decide)
    (show strContains "connection timed out" "429" = false by decide)

/-- C2: an HTTP 429 response makes the gateway return the `[RATE_LIMITED]`
sentinel string (and raise nothing), for every reason phrase and body. -/
theorem send_api_request_rate_limited_429
    (k : String) (t : Transport) (p : String) (m rc rd : Nat)
    (reason : String) (body : Except String Json) (hk : k ≠ "")
    (ht : t ⟨MODEL, SYSTEM_MESSAGE, p, m⟩ = .resp 429 reason body) :
    (send_api_request k t p m rc rd).1 = .ok (.str RATE_LIMITED_MESSAGE)
    ∧ strStartsWith RATE_LIMITED_MESSAGE "[RATE_LIMITED]" = true := by
  refine ⟨?_, by decide⟩
  simp [send_api_request, if_neg hk, ht]

/-- C2 witness at a concrete 429 response. -/
theorem send_api_request_rate_limited_429_witness :
    (send_api_request "k" (fun _ => .resp 429 "Too Many Requests" (.error "no body"))
        "p" 5 1 1).1 = .ok (.str RATE_LIMITED_MESSAGE)
    ∧ strStartsWith RATE_LIMITED_MESSAGE "[RATE_LIMITED]" = true :=
  send_api_request_rate_limited_429 "k"
    (fun _ => .resp 429 "Too Many Requests" (.error "no body")) "p" 5 1 1
    "Too Many Requests" (.error "no body") (by decide) rfl

/-- C3 (code bug): with the key missing the call raises the configuration
`ValueError` before any POST (empty trace); but this is not the only raise
path - with the key present, a 2xx response whose JSON body is the bare
number 42 makes the un-caught `TypeError` from `'choices' in result` escape
to the caller. -/
theorem send_api_request_raise_paths :
    send_api_request "" (fun _ => .resp 200 "OK" (.ok (.num 42))) "p" 2000 1 1
        = (.error (.valueError "OpenRouter API key not set in environment variables"), [])
    ∧ (send_api_request "k" (fun _ => .resp 200 "OK" (.ok (.num 42))) "p" 2000 1 1).1
        = .error (.typeError "argument of type int is not iterable") :=
  ⟨rfl, rfl⟩

/-- C4: a 2xx response with a well-formed `choices[0].message.content` body
makes the gateway return exactly that content string, unmodified. -/
theorem send_api_request_returns_content_verbatim
    (k : String) (t : Transport) (p : String) (m rc rd status : Nat)
    (reason content : String) (kvs kvs₂ kvs₃ : List (String × Json)) (rest : List Json)
    (hk : k ≠ "") (h2xx : 200 ≤ status ∧ status ≤ 299)
    (ht : t ⟨MODEL, SYSTEM_MESSAGE, p, m⟩ = .resp status reason (.ok (.obj kvs)))
    (hc : lookupKey kvs "choices" = some (.arr (.obj kvs₂ :: rest)))
    (hm : lookupKey kvs₂ "message" = some (.obj kvs₃))
    (hco : lookupKey kvs₃ "content" = some (.str content)) :
    (send_api_request k t p m rc rd).1 = .ok (.str content) := by
  have h429 : status ≠ 429 := by omega
  have hr : ¬(400 ≤ status ∧ status < 600) := by omega
  simp only [send_api_request, if_neg hk, ht]
  rw [if_neg h429, if_neg hr]
  simp [extract_content, pyIn, pyGetItemStr, pyLen, pyGetItemZero,
    hc, hm, hco, handleParseErrors, Bind.bind, Except.bind, Pure.pure, Except.pure]

/-- C4 witness: the content comes back verbatim, untrimmed. -/
theorem send_api_request_returns_content_verbatim_witness :
    (send_api_request "k"
        (fun _ => .resp 200 "OK" (.ok (goodBody "  Hello\n World ")))
        "p" 2000 1 1).1 = .ok (.str "  Hello\n World ") :=
  send_api_request_returns_content_verbatim "k"
    (fun _ => .resp 200 "OK" (.ok (goodBody "  Hello\n World ")))
    "p" 2000 1 1 200 "OK" "  Hello\n World "
    [("choices", .arr [.obj [("message", .obj [("content", .str "  Hello\n World ")])]])]
    [("message", .obj [("content", .str "  Hello\n World ")])]
    [("content", .str "  Hello\n World ")] []
    (by decide) (by omega) rfl rfl rfl rfl

/-- C5 counterexample: when the model answers " Astronaut123 ",
`detect_specific_role` returns the normalized raw string "astronaut123",
which is outside every fixed label set appearing in the module (including
the example roles of its own prompt and its default), so this detector does
not validate against a fixed finite set. -/
theorem detect_specific_role_returns_arbitrary_string :
    (detect_specific_role "k"
        (fun _ => .resp 200 "OK" (.ok (goodBody " Astronaut123 "))) "jd").1
      = "astronaut123"
    ∧ "astronaut123" ∉ ["junior", "mid", "senior"]
    ∧ "astronaut123" ∉ ["physical", "technical", "office", "professional", "creative", "it"]
    ∧ "astronaut123" ∉ ["it", "finance", "marketing", "healthcare", "hr",
        "education", "engineering", "transport", "retail", "legal", "creative", "general"]
    ∧ "astronaut123" ∉ ["kierowca", "magazynier", "sprzedawca", "księgowy",
        "programista", "nauczyciel", "lekarz", "grafik", "mechanik", "inżynier",
        "specjalista"] :=
  ⟨rfl, by decide, by decide, by decide, by decide⟩

/-- C5 (amended): the three validated detectors are total - for every key,
transport behavior and input they return a member of their fixed label set,
and they substitute the documented default ("mid", "office", "general") when
the normalized answer is outside the set, when the gateway raised, or when
the gateway handed back a non-string; `detect_specific_role` is also total
and never raises, but for any string answer it returns the normalized raw
string, defaulting to "specjalista" only when the gateway raised or handed
back a non-string. -/
theorem detectors_total_with_defaults
    (k : String) (t : Transport) (cv jd : String) :
    (detect_seniority_level k t cv jd).1 ∈ ["junior", "mid", "senior"]
    ∧ (detect_job_type k t jd).1
        ∈ ["physical", "technical", "office", "professional", "creative", "it"]
    ∧ (detect_industry k t jd).1
        ∈ ["it", "finance", "marketing", "healthcare", "hr", "education",
           "engineering", "transport", "retail", "legal", "creative", "general"]
    ∧ (∀ s, (send_api_request k t (seniority_prompt cv jd) 10).1 = .ok (.str s) →
        pyLower (pyStrip s) ∉ ["junior", "mid", "senior"] →
        (detect_seniority_level k t cv jd).1 = "mid")
    ∧ (∀ e, (send_api_request k t (seniority_prompt cv jd) 10).1 = .error e →
        (detect_seniority_level k t cv jd).1 = "mid")
    ∧ (∀ v, (send_api_request k t (seniority_prompt cv jd) 10).1 = .ok v →
        (∀ s, v ≠ .str s) → (detect_seniority_level k t cv jd).1 = "mid")
    ∧ (∀ s, (send_api_request k t (job_type_prompt jd) 10).1 = .ok (.str s) →
        pyLower (pyStrip s)
          ∉ ["physical", "technical", "office", "professional", "creative", "it"] →
        (detect_job_type k t jd).1 = "office")
    ∧ (∀ e, (send_api_request k t (job_type_prompt jd) 10).1 = .error e →
        (detect_job_type k t jd).1 = "office")
    ∧ (∀ v, (send_api_request k t (job_type_prompt jd) 10).1 = .ok v →
        (∀ s, v ≠ .str s) → (detect_job_type k t jd).1 = "office")
    ∧ (∀ s, (send_api_request k t (industry_prompt jd) 10).1 = .ok (.str s) →
        pyLower (pyStrip s)
          ∉ ["it", "finance", "marketing", "healthcare", "hr", "education",
             "engineering", "transport", "retail", "legal", "creative", "general"] →
        (detect_industry k t jd).1 = "general")
    ∧ (∀ e, (send_api_request k t (industry_prompt jd) 10).1 = .error e →
        (detect_industry k t jd).1 = "general")
    ∧ (∀ v, (send_api_request k t (industry_prompt jd) 10).1 = .ok v →
        (∀ s, v ≠ .str s) → (detect_industry k t jd).1 = "general")
    ∧ (∀ s, (send_api_request k t (specific_role_prompt jd) 10).1 = .ok (.str s) →
        (detect_specific_role k t jd).1 = pyLower (pyStrip s))
    ∧ (∀ e, (send_api_request k t (specific_role_prompt jd) 10).1 = .error e →
        (detect_specific_role k t jd).1 = "specjalista")
    ∧ (∀ v, (send_api_request k t (specific_role_prompt jd) 10).1 = .ok v →
        (∀ s, v ≠ .str s) → (detect_specific_role k t jd).1 = "specjalista") := by
  refine ⟨?_, ?_, ?_, ?_, ?_, ?_, ?_, ?_, ?_, ?_, ?_, ?_, ?_, ?_, ?_⟩
  · unfold detect_seniority_level
    rcases h : send_api_request k t (seniority_prompt cv jd) 10 with ⟨r, trace⟩
    rcases r with e | v
    · exact .tail _ (.head _)
    · cases v <;> try exact .tail _ (.head _)
      dsimp only
      split
      · next hmem => exact hmem
      · exact .tail _ (.head _)
  · unfold detect_job_type
    rcases h : send_api_request k t (job_type_prompt jd) 10 with ⟨r, trace⟩
    rcases r with e | v
    · exact .tail _ (.tail _ (.head _))
    · cases v <;> try exact .tail _ (.tail _ (.head _))
      dsimp only
      split
      · next hmem => exact hmem
      · exact .tail _ (.tail _ (.head _))
  · unfold detect_industry
    rcases h : send_api_request k t (industry_prompt jd) 10 with ⟨r, trace⟩
    rcases r with e | v
    · exact List.mem_iff_get.mpr ⟨⟨11, by decide⟩, rfl⟩
    · cases v <;> try exact List.mem_iff_get.mpr ⟨⟨11, by decide⟩, rfl⟩
      dsimp only
      split
      · next hmem => exact hmem
      · exact List.mem_iff_get.mpr ⟨⟨11, by decide⟩, rfl⟩
  · intro s hs hout
    unfold detect_seniority_level
    rcases h : send_api_request k t (seniority_prompt cv jd) 10 with ⟨r, trace⟩
    rw [h] at hs
    simp only at hs
    subst hs
    dsimp only
    rw [if_neg hout]
  · intro e he
    unfold detect_seniority_level
    rcases h : send_api_request k t (seniority_prompt cv jd) 10 with ⟨r, trace⟩
    rw [h] at he
    simp only at he
    subst he
    rfl
  · intro v hv hns
    unfold detect_seniority_level
    rcases h : send_api_request k t (seniority_prompt cv jd) 10 with ⟨r, trace⟩
    rw [h] at hv
    simp only at hv
    subst hv
    cases v <;> try rfl
    exact absurd rfl (hns _)
  · intro s hs hout
    unfold detect_job_type
    rcases h : send_api_request k t (job_type_prompt jd) 10 with ⟨r, trace⟩
    rw [h] at hs
    simp only at hs
    subst hs
    dsimp only
    rw [if_neg hout]
  · intro e he
    unfold detect_job_type
    rcases h : send_api_request k t (job_type_prompt jd) 10 with ⟨r, trace⟩
    rw [h] at he
    simp only at he
    subst he
    rfl
  · intro v hv hns
    unfold detect_job_type
    rcases h : send_api_request k t (job_type_prompt jd) 10 with ⟨r, trace⟩
    rw [h] at hv
    simp only at hv
    subst hv
    cases v <;> try rfl
    exact absurd rfl (hns _)
  · intro s hs hout
    unfold detect_industry
    rcases h : send_api_request k t (industry_prompt jd) 10 with ⟨r, trace⟩
    rw [h] at hs
    simp only at hs
    subst hs
    dsimp only
    rw [if_neg hout]
  · intro e he
    unfold detect_industry
    rcases h : send_api_request k t (industry_prompt jd) 10 with ⟨r, trace⟩
    rw [h] at he
    simp only at he
    subst he
    rfl
  · intro v hv hns
    unfold detect_industry
    rcases h : send_api_request k t (industry_prompt jd) 10 with ⟨r, trace⟩
    rw [h] at hv
    simp only at hv
    subst hv
    cases v <;> try rfl
    exact absurd rfl (hns _)
  · intro s hs
    unfold detect_specific_role
    rcases h : send_api_request k t (specific_role_prompt jd) 10 with ⟨r, trace⟩
    rw [h] at hs
    simp only at hs
    subst hs
    rfl
  · intro e he
    unfold detect_specific_role
    rcases h : send_api_request k t (specific_role_prompt jd) 10 with ⟨r, trace⟩
    rw [h] at he
    simp only at he
    subst he
    rfl
  · intro v hv hns
    unfold detect_specific_role
    rcases h : send_api_request k t (specific_role_prompt jd) 10 with ⟨r, trace⟩
    rw [h] at hv
    simp only at hv
    subst hv
    cases v <;> try rfl
    exact absurd rfl (hns _)

/-- C5 witness: the out-of-set answer "expert" is replaced by the documented
default in each validated detector: "mid" for seniority, "office" for job
type, "general" for industry. -/
theorem detectors_total_with_defaults_witness :
    (detect_seniority_level "k"
        (fun _ => .resp 200 "OK" (.ok (goodBody "expert"))) "cv" "jd").1 = "mid"
    ∧ (detect_job_type "k"
        (fun _ => .resp 200 "OK" (.ok (goodBody "expert"))) "jd").1 = "office"
    ∧ (detect_industry "k"
        (fun _ => .resp 200 "OK" (.ok (goodBody "expert"))) "jd").1 = "general" :=
  ⟨(detectors_total_with_defaults "k"
      (fun _ => .resp 200 "OK" (.ok (goodBody "expert"))) "cv" "jd").2.2.2.1
    "expert" rfl (by decide),
   (detectors_total_with_defaults "k"
      (fun _ => .resp 200 "OK" (.ok (goodBody "expert"))) "cv" "jd").2.2.2.2.2.2.1
    "expert" rfl (by decide),
   (detectors_total_with_defaults "k"
      (fun _ => .resp 200 "OK" (.ok (goodBody "expert"))) "cv" "jd").2.2.2.2.2.2.2.2.2.1
    "expert" rfl (by decide)⟩

lemma optimize_cv_with_keywords_trace (k : String) (t : Transport)
    (cv jd : String) (kw : Option Json) :
    (optimize_cv_with_keywords k t cv jd kw).2 =
      (detect_seniority_level k t cv jd).2 ++ (detect_industry k t jd).2
      ++ (detect_job_type k t jd).2 ++ (detect_specific_role k t jd).2
      ++ (detect_seniority_level k t cv jd).2 ++ (detect_industry k t jd).2
      ++ (detect_job_type k t jd).2 ++ (detect_specific_role k t jd).2
      ++ (send_api_request k t
            (transformation_prompt (detect_specific_role k t jd).1 cv jd) 3000).2 := by
  unfold optimize_cv_with_keywords
  rcases h : send_api_request k t
      (transformation_prompt (detect_specific_role k t jd).1 cv jd) 3000 with ⟨r, tr⟩
  simp [h, List.append_assoc]

/-- C6: for every input and backend behavior, `optimize_cv_with_keywords`
returns exactly the gateway result of its single direct dispatch - the
transformation prompt with `max_tokens = 3000`; every request it ever issues
is either a detector probe (`max_tokens = 10`) or that dispatch, so the
keyword-extraction and competency-suggestion logic after the `return` on line
906 (which would dispatch with other budgets) never executes; and the result
is independent of `keywords_data`, which only that dead code reads. -/
theorem optimize_cv_with_keywords_first_dispatch
    (k : String) (t : Transport) (cv jd : String) (kw : Option Json) :
    (optimize_cv_with_keywords k t cv jd kw).1
      = (send_api_request k t
          (transformation_prompt (detect_specific_role k t jd).1 cv jd) 3000).1
    ∧ ((optimize_cv_with_keywords k t cv jd kw).2.all
        (fun r => r.max_tokens = 10 || r.max_tokens = 3000)) = true
    ∧ optimize_cv_with_keywords k t cv jd kw = optimize_cv_with_keywords k t cv jd none := by
  refine ⟨rfl, ?_, rfl⟩
  rw [optimize_cv_with_keywords_trace,
    detect_seniority_level_trace, detect_industry_trace,
    detect_job_type_trace, detect_specific_role_trace,
    send_api_request_trace, send_api_request_trace, send_api_request_trace,
    send_api_request_trace, send_api_request_trace]
  by_cases h : k = "" <;> simp [h]

/-- C7: every content generator forwards the gateway's result unchanged -
sentinel strings included, since the equality covers every transport
behavior - and each of its dispatches carries a token budget between 2000
and 3500 (2000, 2000, 2500, 2000 and 3500 respectively). -/
theorem generators_return_gateway_result_unchanged
    (k : String) (t : Transport) (cv jd cn cc : String) (roles : List String) :
    generate_recruiter_feedback k t cv jd
        = send_api_request k t (recruiter_feedback_full_prompt cv jd) 2000
    ∧ generate_cover_letter k t cv jd cn cc
        = send_api_request k t (cover_letter_prompt_2 jd cv) 2000
    ∧ translate_to_english k t cv = send_api_request k t (translate_prompt cv) 2500
    ∧ suggest_alternative_careers k t cv
        = send_api_request k t (alternative_careers_prompt cv) 2000
    ∧ generate_multi_versions k t cv roles
        = send_api_request k t (multi_versions_full_prompt cv roles) 3500
    ∧ ((generate_recruiter_feedback k t cv jd).2.all
        (fun r => 2000 ≤ r.max_tokens && r.max_tokens ≤ 3500)) = true
    ∧ ((generate_cover_letter k t cv jd cn cc).2.all
        (fun r => 2000 ≤ r.max_tokens && r.max_tokens ≤ 3500)) = true
    ∧ ((translate_to_english k t cv).2.all
        (fun r => 2000 ≤ r.max_tokens && r.max_tokens ≤ 3500)) = true
    ∧ ((suggest_alternative_careers k t cv).2.all
        (fun r => 2000 ≤ r.max_tokens && r.max_tokens ≤ 3500)) = true
    ∧ ((generate_multi_versions k t cv roles).2.all
        (fun r => 2000 ≤ r.max_tokens && r.max_tokens ≤ 3500)) = true := by
  refine ⟨rfl, rfl, rfl, rfl, rfl, ?_, ?_, ?_, ?_, ?_⟩
  · rw [show (generate_recruiter_feedback k t cv jd).2
        = (send_api_request k t (recruiter_feedback_full_prompt cv jd) 2000 1 1).2 from rfl,
      send_api_request_trace]
    by_cases h : k = "" <;> simp [h]
  · rw [show (generate_cover_letter k t cv jd cn cc).2
        = (send_api_request k t (cover_letter_prompt_2 jd cv) 2000 1 1).2 from rfl,
      send_api_request_trace]
    by_cases h : k = "" <;> simp [h]
  · rw [show (translate_to_english k t cv).2
        = (send_api_request k t (translate_prompt cv) 2500 1 1).2 from rfl,
      send_api_request_trace]
    by_cases h : k = "" <;> simp [h]
  · rw [show (suggest_alternative_careers k t cv).2
        = (send_api_request k t (alternative_careers_prompt cv) 2000 1 1).2 from rfl,
      send_api_request_trace]
    by_cases h : k = "" <;> simp [h]
  · rw [show (generate_multi_versions k t cv roles).2
        = (send_api_request k t (multi_versions_full_prompt cv roles) 3500 1 1).2 from rfl,
      send_api_request_trace]
    by_cases h : k = "" <;> simp [h]

/-- C8: the gateway's entire observable behavior (result and request trace)
is independent of `retry_count` and `retry_delay`, and a call issues exactly
one POST when the key is present (and none when it is absent): there is no
retry loop on any failure class. -/
theorem send_api_request_ignores_retry_args
    (k : String) (t : Transport) (p : String) (m rc₁ rd₁ rc₂ rd₂ : Nat) :
    send_api_request k t p m rc₁ rd₁ = send_api_request k t p m rc₂ rd₂
    ∧ (send_api_request k t p m rc₁ rd₁).2
        = (if k = "" then [] else [⟨MODEL, SYSTEM_MESSAGE, p, m⟩]) :=
  ⟨rfl, send_api_request_trace k t p m rc₁ rd₁⟩

/-- C10: `generate_cover_letter` ignores `company_name` and
`company_culture`: any two calls differing only in those arguments coincide
exactly (result and trace), because the dispatched prompt is always the
second prompt, which mentions neither. -/
theorem generate_cover_letter_ignores_company_args
    (k : String) (t : Transport) (cv jd cn₁ cc₁ cn₂ cc₂ : String) :
    generate_cover_letter k t cv jd cn₁ cc₁ = generate_cover_letter k t cv jd cn₂ cc₂
    ∧ generate_cover_letter k t cv jd cn₁ cc₁
        = send_api_request k t (cover_letter_prompt_2 jd cv) 2000 :=
  ⟨rfl, rfl⟩

/-- A concrete input longer than 2000 characters, for boundary checks. -/
def longInput : String := ⟨List.replicate 2001 'x'⟩

/-- C9: each detector prompt embeds exactly the first 2000 characters of its
inputs: the prompt depends only on those prefixes; the truncated slice occurs
verbatim inside the prompt; the slice is the whole input when it has at most
2000 characters, and has length exactly 2000 when the input is longer. -/
theorem detector_prompts_truncate_at_2000 (cv jd : String) :
    seniority_prompt cv jd = seniority_prompt (pySlice cv 2000) (pySlice jd 2000)
    ∧ job_type_prompt jd = job_type_prompt (pySlice jd 2000)
    ∧ specific_role_prompt jd = specific_role_prompt (pySlice jd 2000)
    ∧ industry_prompt jd = industry_prompt (pySlice jd 2000)
    ∧ (pySlice cv 2000).data <:+: (seniority_prompt cv jd).data
    ∧ (pySlice jd 2000).data <:+: (seniority_prompt cv jd).data
    ∧ (pySlice jd 2000).data <:+: (job_type_prompt jd).data
    ∧ (pySlice jd 2000).data <:+: (specific_role_prompt jd).data
    ∧ (pySlice jd 2000).data <:+: (industry_prompt jd).data
    ∧ (cv.length ≤ 2000 → pySlice cv 2000 = cv)
    ∧ (jd.length ≤ 2000 → pySlice jd 2000 = jd)
    ∧ (2000 < cv.length → (pySlice cv 2000).length = 2000)
    ∧ (2000 < jd.length → (pySlice jd 2000).length = 2000) := by
  refine ⟨?_, ?_, ?_, ?_, ?_, ?_, ?_, ?_, ?_,
    fun h => pySlice_of_length_le cv 2000 h,
    fun h => pySlice_of_length_le jd 2000 h,
    fun h => pySlice_length_of_lt cv 2000 h,
    fun h => pySlice_length_of_lt jd 2000 h⟩
  · simp only [seniority_prompt, pySlice_pySlice]
  · simp only [job_type_prompt, pySlice_pySlice]
  · simp only [specific_role_prompt, pySlice_pySlice]
  · simp only [industry_prompt, pySlice_pySlice]
  · exact ⟨seniority_prompt_pre.data,
      (seniority_prompt_mid ++ pySlice jd 2000 ++ seniority_prompt_post).data,
      by simp only [seniority_prompt, String.data_append, List.append_assoc]⟩
  · exact ⟨(seniority_prompt_pre ++ pySlice cv 2000 ++ seniority_prompt_mid).data,
      seniority_prompt_post.data,
      by simp only [seniority_prompt, String.data_append, List.append_assoc]⟩
  · exact ⟨job_type_prompt_pre.data, job_type_prompt_post.data,
      by simp only [job_type_prompt, String.data_append, List.append_assoc]⟩
  · exact ⟨specific_role_prompt_pre.data, specific_role_prompt_post.data,
      by simp only [specific_role_prompt, String.data_append, List.append_assoc]⟩
  · exact ⟨industry_prompt_pre.data, industry_prompt_post.data,
      by simp only [industry_prompt, String.data_append, List.append_assoc]⟩

/-- C9 witness: truncation is a no-op at length 3 and cuts a 2001-character
input to exactly 2000 characters. -/
theorem detector_prompts_truncate_at_2000_witness :
    pySlice "abc" 2000 = "abc" ∧ (pySlice longInput 2000).length = 2000 := by
  constructor
  · exact (detector_prompts_truncate_at_2000 "abc" "d").2.2.2.2.2.2.2.2.2.1 (by decide)
  · exact (detector_prompts_truncate_at_2000 longInput "d").2.2.2.2.2.2.2.2.2.2.2.1
      (by show (2000 : Nat) < (List.replicate 2001 'x').length
          rw [List.length_replicate]
          omega)
